import Mathlib

/-!
Verification of the VM SKU comparison core (`web-app/api/compare_vms/__init__.py`):
capability extraction, similarity scoring, hard-match filtering and ranking.

Embedding choices:
* Python ints are modelled as `ℤ`, Python floats as `ℚ` (exact arithmetic).
* `int(s)` / `float(s)` on attribute strings are modelled by `parseInt` /
  `parseFloat`; an unparsable value is a raised `ValueError`, modelled by
  `Except.error`, which propagates through the whole comparison exactly as the
  Python exception propagates to the outer handler.
* The attribute dictionary built by iterating the capabilities list is modelled
  as a function `String → Option String` built by a left fold, so later
  occurrences of a name overwrite earlier ones, as in a Python dict.
* The external pricing provider is an opaque parameter; availability zones are
  computed by the (pure) source function `get_availability_zones`.
* `list.sort(key=..., reverse=True)` is a stable sort; it is modelled by
  `List.insertionSort` with the relation "greater-or-equal similarity score",
  which is extensionally the unique stable descending sort.
-/

/-- Decimal-digit run to a natural number (most significant first). -/

def digitsVal (l : List Char) : ℕ :=
  l.foldl (fun n c => 10 * n + (c.toNat - 48)) 0

/-- True iff `l` is a nonempty run of ASCII digits. -/

def isDigits (l : List Char) : Bool :=
  !l.isEmpty && l.all (fun c => c.isDigit)

/-- Model of Python `int(s)` on a string: optional sign followed by digits;
anything else raises `ValueError`, modelled as `none`. -/

def parseInt (s : String) : Option ℤ :=
  match s.data with
  | '-' :: rest => if isDigits rest then some (-(digitsVal rest : ℤ)) else none
  | '+' :: rest => if isDigits rest then some ((digitsVal rest : ℤ)) else none
  | l => if isDigits l then some ((digitsVal l : ℤ)) else none

/-- Unsigned decimal (`"12"`, `"12.5"`, `"12."`, `".5"`) to an exact rational. -/

def parseUFloat (l : List Char) : Option ℚ :=
  match l.splitOn '.' with
  | [ip] => if isDigits ip then some ((digitsVal ip : ℚ)) else none
  | [ip, fp] =>
    if (ip.all (fun c => c.isDigit)) && (fp.all (fun c => c.isDigit))
        && !(ip.isEmpty && fp.isEmpty) then
      some ((digitsVal ip : ℚ) + (digitsVal fp : ℚ) / 10 ^ fp.length)
    else none
  | _ => none

/-- Model of Python `float(s)` on a string (decimal forms; exponent and
inf/nan forms are never produced by the capability catalog). -/

def parseFloat (s : String) : Option ℚ :=
  match s.data with
  | '-' :: rest => (parseUFloat rest).map (fun q => -q)
  | '+' :: rest => parseUFloat rest
  | l => parseUFloat l

/-- One name-value entry of the capability list of a raw SKU. -/

structure RawCapability where
  name : String
  value : String
deriving DecidableEq, Repr

/-- One entry of the locationInfo list of a raw SKU. -/

structure LocationInfo where
  location : String
  zones : List String
deriving DecidableEq, Repr

/-- A raw catalog record: name, optional capability list, optional
location-availability list. -/

structure RawSku where
  name : String
  capabilities : Option (List RawCapability)
  locationInfo : Option (List LocationInfo)
deriving DecidableEq, Repr

/-- The dict built by the extraction loop over the capability list — later
entries overwrite earlier ones, as in a Python dict. -/

def buildCapMap (caps : List RawCapability) : String → Option String :=
  caps.foldl (fun m c => fun k => if k = c.name then some c.value else m k)
    (fun _ => none)

/-- The capability dict of a raw SKU; an absent `capabilities` key yields the
empty dict. -/

def capMapOf (sku : RawSku) : String → Option String :=
  match sku.capabilities with
  | some caps => buildCapMap caps
  | none => fun _ => none

/-- Model of `int(capabilities.get(k, 0))`: a missing attribute yields the
default `0`, a present attribute is parsed and raises on failure. -/

def getInt (m : String → Option String) (k : String) : Except String ℤ :=
  match m k with
  | none => Except.ok 0
  | some v =>
    match parseInt v with
    | some n => Except.ok n
    | none => Except.error ("invalid literal for int(): " ++ v)

/-- Model of `float(capabilities.get(k, 0))`. -/

def getFloat (m : String → Option String) (k : String) : Except String ℚ :=
  match m k with
  | none => Except.ok 0
  | some v =>
    match parseFloat v with
    | some q => Except.ok q
    | none => Except.error ("could not convert string to float: " ++ v)

/-- Model of comparing the looked-up attribute value against the literal
string True; absence compares unequal. -/

def getBool (m : String → Option String) (k : String) : Bool :=
  m k == some "True"

/-- The extracted, fully-typed capability record of one SKU
(`extract_capabilities` returns a dict with exactly these keys). -/

structure CapabilityProfile where
  vCPUs : ℤ
  memoryGB : ℚ
  maxDataDiskCount : ℤ
  maxNics : ℤ
  premiumIo : Bool
  ephemeralOSDisk : Bool
  acceleratedNetworking : Bool
  encryptionAtHost : Bool
  gpuCount : ℤ
  gpuType : Option String
  nvme : Bool
  uncachedDiskIOPS : ℤ
  uncachedDiskBytesPerSecond : ℤ
  cachedDiskIOPS : ℤ
  cachedDiskBytesPerSecond : ℤ
  maxWriteAcceleratorDisks : ℤ
deriving DecidableEq, Repr

/-- The profile of a record with every attribute absent: all documented
defaults. -/

def default_profile : CapabilityProfile :=
  ⟨0, 0, 0, 0, false, false, false, false, 0, none, false, 0, 0, 0, 0, 0⟩

/-- Translation of `extract_capabilities` (source lines 212-236).  Field
parses happen in source order; the first unparsable present attribute raises.
`nvme` is derived from a fresh parse of `UncachedDiskIOPS` (line 230), exactly
as in the source, never read as a literal attribute. -/

def extract_capabilities (sku : RawSku) : Except String CapabilityProfile :=
  match getInt (capMapOf sku) "vCPUs" with
  | Except.error e => Except.error e
  | Except.ok vCPUs =>
  match getFloat (capMapOf sku) "MemoryGB" with
  | Except.error e => Except.error e
  | Except.ok memoryGB =>
  match getInt (capMapOf sku) "MaxDataDiskCount" with
  | Except.error e => Except.error e
  | Except.ok maxDataDiskCount =>
  match getInt (capMapOf sku) "MaxNetworkInterfaces" with
  | Except.error e => Except.error e
  | Except.ok maxNics =>
  match getInt (capMapOf sku) "GPUs" with
  | Except.error e => Except.error e
  | Except.ok gpuCount =>
  match getInt (capMapOf sku) "UncachedDiskIOPS" with
  | Except.error e => Except.error e
  | Except.ok nvmeIops =>
  match getInt (capMapOf sku) "UncachedDiskIOPS" with
  | Except.error e => Except.error e
  | Except.ok uncachedDiskIOPS =>
  match getInt (capMapOf sku) "UncachedDiskBytesPerSecond" with
  | Except.error e => Except.error e
  | Except.ok uncachedDiskBytesPerSecond =>
  match getInt (capMapOf sku) "CachedDiskIOPS" with
  | Except.error e => Except.error e
  | Except.ok cachedDiskIOPS =>
  match getInt (capMapOf sku) "CachedDiskBytesPerSecond" with
  | Except.error e => Except.error e
  | Except.ok cachedDiskBytesPerSecond =>
  match getInt (capMapOf sku) "MaxWriteAcceleratorDisksAllowed" with
  | Except.error e => Except.error e
  | Except.ok maxWriteAcceleratorDisks =>
  Except.ok ⟨vCPUs, memoryGB, maxDataDiskCount, maxNics,
    getBool (capMapOf sku) "PremiumIO",
    getBool (capMapOf sku) "EphemeralOSDiskSupported",
    getBool (capMapOf sku) "AcceleratedNetworkingEnabled",
    getBool (capMapOf sku) "EncryptionAtHostSupported", gpuCount,
    capMapOf sku "GPUName", decide (nvmeIops > 100000), uncachedDiskIOPS,
    uncachedDiskBytesPerSecond, cachedDiskIOPS, cachedDiskBytesPerSecond,
    maxWriteAcceleratorDisks⟩

/-- The six caller-supplied non-negative weights (request fields
`weightCPU` … `weightFeatures`). -/

structure Weights where
  weightCPU : ℚ
  weightMemory : ℚ
  weightGPU : ℚ
  weightStorage : ℚ
  weightNetwork : ℚ
  weightFeatures : ℚ
deriving DecidableEq, Repr

/-- CPU sub-score (source lines 245-247): relative difference against the
value of the target, clamped at 0. -/

def cpu_score (target candidate : CapabilityProfile) : ℚ :=
  let cpu_diff := ((|target.vCPUs - candidate.vCPUs| : ℤ) : ℚ) / ((target.vCPUs : ℤ) : ℚ)
  max 0 (100 - cpu_diff * 100)

/-- Memory sub-score (source lines 252-254). -/

def mem_score (target candidate : CapabilityProfile) : ℚ :=
  let mem_diff := |target.memoryGB - candidate.memoryGB| / target.memoryGB
  max 0 (100 - mem_diff * 100)

/-- GPU sub-score (source line 260): binary equality of GPU counts. -/

def gpu_match (target candidate : CapabilityProfile) : ℚ :=
  if target.gpuCount = candidate.gpuCount then 100 else 0

/-- Storage sub-score (source lines 265-267). -/

def iops_score (target candidate : CapabilityProfile) : ℚ :=
  let iops_diff := ((|target.uncachedDiskIOPS - candidate.uncachedDiskIOPS| : ℤ) : ℚ) /
    ((target.uncachedDiskIOPS : ℤ) : ℚ)
  max 0 (100 - iops_diff * 100)

/-- Network sub-score (source lines 272-274). -/

def nic_score (target candidate : CapabilityProfile) : ℚ :=
  let nic_diff := ((|target.maxNics - candidate.maxNics| : ℤ) : ℚ) / ((target.maxNics : ℤ) : ℚ)
  max 0 (100 - nic_diff * 100)

/-- Number of the four feature booleans on which target and candidate agree
(source line 280, in source list order). -/

def feature_matches (target candidate : CapabilityProfile) : ℕ :=
  (if target.premiumIo = candidate.premiumIo then 1 else 0)
  + (if target.acceleratedNetworking = candidate.acceleratedNetworking then 1 else 0)
  + (if target.encryptionAtHost = candidate.encryptionAtHost then 1 else 0)
  + (if target.ephemeralOSDisk = candidate.ephemeralOSDisk then 1 else 0)

/-- Features sub-score (source line 281). -/

def feature_score (target candidate : CapabilityProfile) : ℚ :=
  ((feature_matches target candidate : ℚ) / 4) * 100

/-- Translation of `calculate_similarity` (source lines 239-285).  The pair
accumulates `(total_score, total_weight)` through the five guarded dimensions
and the always-active features dimension; the final division falls back to 0
when the accumulated weight is not positive.  `tolerance` is accepted but
never used, exactly as in the source. -/

def calculate_similarity (target candidate : CapabilityProfile) (weights : Weights)
    (tolerance : ℚ) : ℚ :=
  let acc0 : ℚ × ℚ := (0, 0)
  let acc1 := if target.vCPUs > 0 then
      (acc0.1 + cpu_score target candidate * weights.weightCPU, acc0.2 + weights.weightCPU)
    else acc0
  let acc2 := if target.memoryGB > 0 then
      (acc1.1 + mem_score target candidate * weights.weightMemory, acc1.2 + weights.weightMemory)
    else acc1
  let acc3 := if target.gpuCount > 0 ∨ candidate.gpuCount > 0 then
      (acc2.1 + gpu_match target candidate * weights.weightGPU, acc2.2 + weights.weightGPU)
    else acc2
  let acc4 := if target.uncachedDiskIOPS > 0 then
      (acc3.1 + iops_score target candidate * weights.weightStorage, acc3.2 + weights.weightStorage)
    else acc3
  let acc5 := if target.maxNics > 0 then
      (acc4.1 + nic_score target candidate * weights.weightNetwork, acc4.2 + weights.weightNetwork)
    else acc4
  let acc6 := (acc5.1 + feature_score target candidate * weights.weightFeatures,
    acc5.2 + weights.weightFeatures)
  if acc6.2 > 0 then acc6.1 / acc6.2 else 0

/-- The accumulated total score of the code, written as a flat sum over the
active dimensions. -/

def total_score_of (target candidate : CapabilityProfile) (weights : Weights) : ℚ :=
  (if target.vCPUs > 0 then cpu_score target candidate * weights.weightCPU else 0)
  + (if target.memoryGB > 0 then mem_score target candidate * weights.weightMemory else 0)
  + (if target.gpuCount > 0 ∨ candidate.gpuCount > 0 then
      gpu_match target candidate * weights.weightGPU else 0)
  + (if target.uncachedDiskIOPS > 0 then iops_score target candidate * weights.weightStorage else 0)
  + (if target.maxNics > 0 then nic_score target candidate * weights.weightNetwork else 0)
  + feature_score target candidate * weights.weightFeatures

/-- The accumulated total weight of the code, written as a flat sum over the
active dimensions. -/

def total_weight_of (target candidate : CapabilityProfile) (weights : Weights) : ℚ :=
  (if target.vCPUs > 0 then weights.weightCPU else 0)
  + (if target.memoryGB > 0 then weights.weightMemory else 0)
  + (if target.gpuCount > 0 ∨ candidate.gpuCount > 0 then weights.weightGPU else 0)
  + (if target.uncachedDiskIOPS > 0 then weights.weightStorage else 0)
  + (if target.maxNics > 0 then weights.weightNetwork else 0)
  + weights.weightFeatures

/-- Modelled from the spec (section 4.3): relative-difference sub-score
`max(0, 100 - 100*d)` with `d = |target - candidate| / target`. -/

def spec_rel_subscore (tv cv : ℚ) : ℚ :=
  max 0 (100 - 100 * (|tv - cv| / tv))

/-- Modelled from the spec (section 4.3): binary GPU sub-score. -/

def spec_gpu_subscore (target candidate : CapabilityProfile) : ℚ :=
  if target.gpuCount = candidate.gpuCount then 100 else 0

/-- Modelled from the spec (section 4.3): features sub-score
`100 * (agreement count / 4)`. -/

def spec_feature_subscore (target candidate : CapabilityProfile) : ℚ :=
  100 * ((feature_matches target candidate : ℚ) / 4)

/-- Modelled from the spec (section 4.3): `sum(weight_i for active i)` with
the guards of the six dimensions (features always active). -/

def spec_active_weight (target candidate : CapabilityProfile) (weights : Weights) : ℚ :=
  (if target.vCPUs > 0 then weights.weightCPU else 0)
  + (if target.memoryGB > 0 then weights.weightMemory else 0)
  + (if target.gpuCount > 0 ∨ candidate.gpuCount > 0 then weights.weightGPU else 0)
  + (if target.uncachedDiskIOPS > 0 then weights.weightStorage else 0)
  + (if target.maxNics > 0 then weights.weightNetwork else 0)
  + weights.weightFeatures

/-- Modelled from the spec (section 4.3): `sum(sub-score_i * weight_i for
active i)`. -/

def spec_weighted_sum (target candidate : CapabilityProfile) (weights : Weights) : ℚ :=
  (if target.vCPUs > 0 then
    spec_rel_subscore (target.vCPUs : ℚ) (candidate.vCPUs : ℚ) * weights.weightCPU else 0)
  + (if target.memoryGB > 0 then
    spec_rel_subscore target.memoryGB candidate.memoryGB * weights.weightMemory else 0)
  + (if target.gpuCount > 0 ∨ candidate.gpuCount > 0 then
    spec_gpu_subscore target candidate * weights.weightGPU else 0)
  + (if target.uncachedDiskIOPS > 0 then
    spec_rel_subscore (target.uncachedDiskIOPS : ℚ) (candidate.uncachedDiskIOPS : ℚ)
      * weights.weightStorage else 0)
  + (if target.maxNics > 0 then
    spec_rel_subscore (target.maxNics : ℚ) (candidate.maxNics : ℚ) * weights.weightNetwork else 0)
  + spec_feature_subscore target candidate * weights.weightFeatures

/-- Modelled from the spec (section 4.3): final score is the weighted average
over active dimensions, or 0 when no weight is active. -/

def spec_score (target candidate : CapabilityProfile) (weights : Weights) : ℚ :=
  if spec_active_weight target candidate weights = 0 then 0
  else spec_weighted_sum target candidate weights / spec_active_weight target candidate weights

/-- Model of Python `round` to the nearest integer: round half to even. -/

def round_half_even (x : ℚ) : ℤ :=
  let f := ⌊x⌋
  if x - f < 1 / 2 then f
  else if 1 / 2 < x - f then f + 1
  else if f % 2 = 0 then f else f + 1

/-- Model of Python `round(x, 2)`. -/

def round2 (x : ℚ) : ℚ :=
  (round_half_even (x * 100) : ℚ) / 100

/-- The Match Filter (source lines 124-127): the two `continue` guards of the
candidate loop, in source order.  Returns `true` iff the candidate is
admitted to scoring. -/

def admits (target candidate : CapabilityProfile)
    (requireNVMeMatch requireGPUMatch : Bool) : Bool :=
  if requireNVMeMatch && target.nvme && !candidate.nvme then false
  else if requireGPUMatch && decide (target.gpuCount > 0) && decide (candidate.gpuCount = 0) then
    false
  else true

/-- Pricing data returned by the external pricing provider (absent on any
failure). -/

structure PricingInfo where
  hourlyPrice : ℚ
  monthlyPrice : ℚ
  currency : String
deriving DecidableEq, Repr

/-- One entry of the alternatives list of the response (source lines 148-158). -/

structure AlternativeResult where
  name : String
  similarityScore : ℚ
  vCPUs : ℤ
  memoryGB : ℚ
  gpuCount : ℤ
  gpuType : Option String
  pricing : Option PricingInfo
  zones : String
  capabilities : CapabilityProfile
deriving DecidableEq, Repr

/-- Translation of `get_availability_zones` (source lines 322-328): the first
`locationInfo` entry matching the location with a non-empty zone list yields
its zones, sorted. -/

def get_availability_zones (sku : RawSku) (location : String) : List String :=
  match sku.locationInfo with
  | none => []
  | some infos =>
    match infos.find? (fun li => li.location == location && !li.zones.isEmpty) with
    | some li => li.zones.insertionSort (fun a b => a ≤ b)
    | none => []

/-- The comma-joined zones string, or N/A when empty (source line 156). -/

def zoneText (zones : List String) : String :=
  if zones.isEmpty then "N/A" else String.intercalate ", " zones

/-- The resolved comparison request (source lines 41-53). -/

structure ComparisonRequest where
  skuName : String
  location : String
  currencyCode : String
  tolerance : ℚ
  minSimilarityScore : ℚ
  weights : Weights
  requireNVMeMatch : Bool
  requireGPUMatch : Bool
deriving DecidableEq, Repr

/-- Materialization of one admitted alternative (source lines 148-158); the
stored score is rounded to two decimals, the raw score decided admission. -/

def mk_alternative (req : ComparisonRequest) (sku : RawSku) (caps : CapabilityProfile)
    (score : ℚ) (pricing : Option PricingInfo) : AlternativeResult :=
  ⟨sku.name, round2 score, caps.vCPUs, caps.memoryGB, caps.gpuCount, caps.gpuType,
    pricing, zoneText (get_availability_zones sku req.location), caps⟩

/-- The candidate loop (source lines 116-158): skip the target by name,
extract (an extraction error propagates and aborts the whole comparison),
filter, score, and materialize candidates at or above the threshold, in
catalog order.  The pricing provider is an opaque external collaborator. -/

def build_alternatives (req : ComparisonRequest) (target_capabilities : CapabilityProfile)
    (pricing : String → String → String → Option PricingInfo) :
    List RawSku → Except String (List AlternativeResult)
  | [] => Except.ok []
  | sku :: rest =>
    if sku.name = req.skuName then build_alternatives req target_capabilities pricing rest
    else
      match extract_capabilities sku with
      | Except.error e => Except.error e
      | Except.ok sku_capabilities =>
        if admits target_capabilities sku_capabilities req.requireNVMeMatch req.requireGPUMatch
        then
          let similarity_score :=
            calculate_similarity target_capabilities sku_capabilities req.weights req.tolerance
          if similarity_score ≥ req.minSimilarityScore then
            match build_alternatives req target_capabilities pricing rest with
            | Except.error e => Except.error e
            | Except.ok alts =>
              Except.ok (mk_alternative req sku sku_capabilities similarity_score
                (pricing sku.name req.location req.currencyCode) :: alts)
          else build_alternatives req target_capabilities pricing rest
        else build_alternatives req target_capabilities pricing rest

/-- Descending order on stored similarity scores, the key of the final
`alternatives.sort(key=..., reverse=True)`. -/

def similarity_desc (a b : AlternativeResult) : Prop :=
  b.similarityScore ≤ a.similarityScore

instance : DecidableRel similarity_desc :=
  fun a b => inferInstanceAs (Decidable (b.similarityScore ≤ a.similarityScore))

instance : IsTotal AlternativeResult similarity_desc :=
  ⟨fun a b => le_total b.similarityScore a.similarityScore⟩

instance : IsTrans AlternativeResult similarity_desc :=
  ⟨fun _ _ _ h1 h2 => le_trans h2 h1⟩

/-- Model of the final in-place list sort keyed on the stored similarity
score, reversed: the Python sort is stable, so it is extensionally the stable
descending sort, here realized by insertion sort. -/

def sort_alternatives (alts : List AlternativeResult) : List AlternativeResult :=
  alts.insertionSort similarity_desc

/-- The comparison orchestrator (source lines 98-161): locate the target by
name (not-found aborts), extract its profile, build the admitted alternatives
and sort them by stored score descending. -/

def compare_vms (req : ComparisonRequest)
    (pricing : String → String → String → Option PricingInfo) (all_skus : List RawSku) :
    Except String (CapabilityProfile × List AlternativeResult) :=
  match all_skus.find? (fun s => s.name == req.skuName) with
  | none => Except.error ("SKU " ++ req.skuName ++ " not found in location " ++ req.location)
  | some target_sku =>
    match extract_capabilities target_sku with
    | Except.error e => Except.error e
    | Except.ok target_capabilities =>
      match build_alternatives req target_capabilities pricing all_skus with
      | Except.error e => Except.error e
      | Except.ok alternatives =>
        Except.ok (target_capabilities, sort_alternatives alternatives)

/-- The nine integer-typed source attributes, in source parse order. -/

def int_capability_keys : List String :=
  ["vCPUs", "MaxDataDiskCount", "MaxNetworkInterfaces", "GPUs", "UncachedDiskIOPS",
    "UncachedDiskBytesPerSecond", "CachedDiskIOPS", "CachedDiskBytesPerSecond",
    "MaxWriteAcceleratorDisksAllowed"]

/-- A sample target profile used by concrete checks. -/

def example_target : CapabilityProfile :=
  ⟨4, 16, 8, 2, true, false, true, false, 0, none, false, 5000, 0, 0, 0, 0⟩

/-- A sample candidate profile used by concrete checks. -/

def example_candidate : CapabilityProfile :=
  ⟨8, 32, 4, 4, true, true, false, false, 0, none, false, 4000, 0, 0, 0, 0⟩

/-- The default weights of the request parser (source lines 46-51). -/

def default_weights : Weights := ⟨2, 2, 2, 1, 1, 1/2⟩

/-- The all-zero weight set. -/

def zero_weights : Weights := ⟨0, 0, 0, 0, 0, 0⟩

/-- Target profile of the symmetry check: 4 vCPUs, nothing else. -/

def asym_target : CapabilityProfile :=
  ⟨4, 0, 0, 0, false, false, false, false, 0, none, false, 0, 0, 0, 0, 0⟩

/-- Candidate profile of the symmetry check: 8 vCPUs, nothing else. -/

def asym_candidate : CapabilityProfile :=
  ⟨8, 0, 0, 0, false, false, false, false, 0, none, false, 0, 0, 0, 0, 0⟩

/-- A sample request targeting SKU `T`. -/

def example_request : ComparisonRequest :=
  ⟨"T", "eastus", "USD", 20, 60, default_weights, false, false⟩

/-- A well-formed target record named `T`. -/

def example_target_sku : RawSku := ⟨"T", some [⟨"vCPUs", "4"⟩], none⟩

/-- A candidate record with an unparsable `vCPUs` value. -/

def example_bad_sku : RawSku := ⟨"B", some [⟨"vCPUs", "four"⟩], none⟩

/-- Weights of the ranking scenario: CPU only. -/

def ranking_weights : Weights := ⟨1, 0, 0, 0, 0, 0⟩

/-- Request of the ranking scenario: threshold 85. -/

def ranking_request : ComparisonRequest :=
  ⟨"Std_T", "westus", "USD", 20, 85, ranking_weights, false, false⟩

/-- Target record of the ranking scenario. -/

def sku_t : RawSku := ⟨"Std_T", some [⟨"vCPUs", "100"⟩], none⟩

/-- Candidate scoring 90. -/

def sku_a : RawSku := ⟨"A", some [⟨"vCPUs", "90"⟩], none⟩

/-- Candidate scoring 95. -/

def sku_b : RawSku := ⟨"B", some [⟨"vCPUs", "95"⟩], none⟩

/-- Candidate scoring 80 (below the threshold). -/

def sku_c : RawSku := ⟨"C", some [⟨"vCPUs", "80"⟩], none⟩

/-- Extracted target profile of the ranking scenario. -/

def caps_t : CapabilityProfile :=
  ⟨100, 0, 0, 0, false, false, false, false, 0, none, false, 0, 0, 0, 0, 0⟩

/-- Extracted profile of candidate `A`. -/

def caps_a : CapabilityProfile :=
  ⟨90, 0, 0, 0, false, false, false, false, 0, none, false, 0, 0, 0, 0, 0⟩

/-- Extracted profile of candidate `B`. -/

def caps_b : CapabilityProfile :=
  ⟨95, 0, 0, 0, false, false, false, false, 0, none, false, 0, 0, 0, 0, 0⟩

/-- Extracted profile of candidate `C`. -/

def caps_c : CapabilityProfile :=
  ⟨80, 0, 0, 0, false, false, false, false, 0, none, false, 0, 0, 0, 0, 0⟩

/-- A pricing provider with no data (pricing is external and optional). -/

def pricing0 : String → String → String → Option PricingInfo := fun _ _ _ => none

/-- The materialized alternative for candidate `A`. -/

def alt_a : AlternativeResult := ⟨"A", 90, 90, 0, 0, none, none, "N/A", caps_a⟩

/-- The materialized alternative for candidate `B`. -/

def alt_b : AlternativeResult := ⟨"B", 95, 95, 0, 0, none, none, "N/A", caps_b⟩

/-- The sequential accumulation in `calculate_similarity` equals the flat
weighted sums over active dimensions. -/

theorem calculate_similarity_closed (target candidate : CapabilityProfile) (weights : Weights)
    (tolerance : ℚ) :
    calculate_similarity target candidate weights tolerance =
      if total_weight_of target candidate weights > 0 then
        total_score_of target candidate weights / total_weight_of target candidate weights
      else 0 := by
  by_cases h1 : target.vCPUs > 0 <;>
    by_cases h2 : target.memoryGB > 0 <;>
    by_cases h3 : target.gpuCount > 0 ∨ candidate.gpuCount > 0 <;>
    by_cases h4 : target.uncachedDiskIOPS > 0 <;>
    by_cases h5 : target.maxNics > 0 <;>
    simp [calculate_similarity, total_score_of, total_weight_of, h1, h2, h3, h4, h5]

theorem cpu_score_eq_spec (target candidate : CapabilityProfile) :
    cpu_score target candidate = spec_rel_subscore (target.vCPUs : ℚ) (candidate.vCPUs : ℚ) := by
  unfold cpu_score spec_rel_subscore
  push_cast
  ring_nf

theorem mem_score_eq_spec (target candidate : CapabilityProfile) :
    mem_score target candidate = spec_rel_subscore target.memoryGB candidate.memoryGB := by
  unfold mem_score spec_rel_subscore
  ring_nf

theorem iops_score_eq_spec (target candidate : CapabilityProfile) :
    iops_score target candidate =
      spec_rel_subscore (target.uncachedDiskIOPS : ℚ) (candidate.uncachedDiskIOPS : ℚ) := by
  unfold iops_score spec_rel_subscore
  push_cast
  ring_nf

theorem nic_score_eq_spec (target candidate : CapabilityProfile) :
    nic_score target candidate =
      spec_rel_subscore (target.maxNics : ℚ) (candidate.maxNics : ℚ) := by
  unfold nic_score spec_rel_subscore
  push_cast
  ring_nf

theorem feature_score_eq_spec (target candidate : CapabilityProfile) :
    feature_score target candidate = spec_feature_subscore target candidate := by
  unfold feature_score spec_feature_subscore
  ring

theorem total_score_eq_spec (target candidate : CapabilityProfile) (weights : Weights) :
    total_score_of target candidate weights = spec_weighted_sum target candidate weights := by
  unfold total_score_of spec_weighted_sum
  rw [cpu_score_eq_spec, mem_score_eq_spec, iops_score_eq_spec, nic_score_eq_spec,
    feature_score_eq_spec]
  rfl

theorem total_weight_eq_spec (target candidate : CapabilityProfile) (weights : Weights) :
    total_weight_of target candidate weights = spec_active_weight target candidate weights := rfl

theorem total_weight_nonneg (target candidate : CapabilityProfile) (weights : Weights)
    (h1 : 0 ≤ weights.weightCPU) (h2 : 0 ≤ weights.weightMemory) (h3 : 0 ≤ weights.weightGPU)
    (h4 : 0 ≤ weights.weightStorage) (h5 : 0 ≤ weights.weightNetwork)
    (h6 : 0 ≤ weights.weightFeatures) :
    0 ≤ total_weight_of target candidate weights := by
  unfold total_weight_of
  split_ifs <;> linarith

/-- Core refinement lemma: the implemented similarity equals the
weighted-average formula of the spec, for non-negative weights. -/

theorem calc_eq_spec_score (target candidate : CapabilityProfile) (weights : Weights)
    (tolerance : ℚ)
    (h1 : 0 ≤ weights.weightCPU) (h2 : 0 ≤ weights.weightMemory) (h3 : 0 ≤ weights.weightGPU)
    (h4 : 0 ≤ weights.weightStorage) (h5 : 0 ≤ weights.weightNetwork)
    (h6 : 0 ≤ weights.weightFeatures) :
    calculate_similarity target candidate weights tolerance =
      spec_score target candidate weights := by
  rw [calculate_similarity_closed, spec_score, ← total_weight_eq_spec, ← total_score_eq_spec]
  rcases lt_or_eq_of_le (total_weight_nonneg target candidate weights h1 h2 h3 h4 h5 h6)
    with hw | hw
  · rw [if_pos hw, if_neg (by linarith)]
  · rw [if_neg (by linarith), if_pos hw.symm]

theorem cpu_score_self (p : CapabilityProfile) : cpu_score p p = 100 := by
  unfold cpu_score
  simp

theorem mem_score_self (p : CapabilityProfile) : mem_score p p = 100 := by
  unfold mem_score
  simp

theorem gpu_match_self (p : CapabilityProfile) : gpu_match p p = 100 := by
  unfold gpu_match
  simp

theorem iops_score_self (p : CapabilityProfile) : iops_score p p = 100 := by
  unfold iops_score
  simp

theorem nic_score_self (p : CapabilityProfile) : nic_score p p = 100 := by
  unfold nic_score
  simp

theorem feature_score_self (p : CapabilityProfile) : feature_score p p = 100 := by
  unfold feature_score feature_matches
  norm_num

theorem total_score_self (p : CapabilityProfile) (weights : Weights) :
    total_score_of p p weights = 100 * total_weight_of p p weights := by
  unfold total_score_of total_weight_of
  rw [cpu_score_self, mem_score_self, gpu_match_self, iops_score_self, nic_score_self,
    feature_score_self]
  split_ifs <;> ring

/-- Self-comparison scores exactly 100 whenever the active weight is
positive, and 0 when the accumulated weight is not positive. -/

theorem self_similarity_aux (p : CapabilityProfile) (weights : Weights) (tolerance : ℚ) :
    (total_weight_of p p weights > 0 → calculate_similarity p p weights tolerance = 100) ∧
    (¬ total_weight_of p p weights > 0 → calculate_similarity p p weights tolerance = 0) := by
  rw [calculate_similarity_closed, total_score_self]
  constructor
  · intro h
    rw [if_pos h, mul_div_assoc, div_self (ne_of_gt h), mul_one]
  · intro h
    rw [if_neg h]

theorem gpu_match_symm (target candidate : CapabilityProfile) :
    gpu_match target candidate = gpu_match candidate target := by
  unfold gpu_match
  by_cases h : target.gpuCount = candidate.gpuCount
  · rw [if_pos h, if_pos h.symm]
  · rw [if_neg h, if_neg (fun hc => h hc.symm)]

theorem feature_matches_symm (target candidate : CapabilityProfile) :
    feature_matches target candidate = feature_matches candidate target := by
  unfold feature_matches
  simp [eq_comm]

theorem feature_score_symm (target candidate : CapabilityProfile) :
    feature_score target candidate = feature_score candidate target := by
  unfold feature_score
  rw [feature_matches_symm]

/-- Characterization of a successful extraction: every field of the profile
is the value of its getter on the capability dict, and `nvme` is derived from
the parsed `UncachedDiskIOPS`. -/

theorem extract_ok_fields (sku : RawSku) (p : CapabilityProfile)
    (h : extract_capabilities sku = Except.ok p) :
    getInt (capMapOf sku) "vCPUs" = Except.ok p.vCPUs ∧
    getFloat (capMapOf sku) "MemoryGB" = Except.ok p.memoryGB ∧
    getInt (capMapOf sku) "MaxDataDiskCount" = Except.ok p.maxDataDiskCount ∧
    getInt (capMapOf sku) "MaxNetworkInterfaces" = Except.ok p.maxNics ∧
    p.premiumIo = getBool (capMapOf sku) "PremiumIO" ∧
    p.ephemeralOSDisk = getBool (capMapOf sku) "EphemeralOSDiskSupported" ∧
    p.acceleratedNetworking = getBool (capMapOf sku) "AcceleratedNetworkingEnabled" ∧
    p.encryptionAtHost = getBool (capMapOf sku) "EncryptionAtHostSupported" ∧
    getInt (capMapOf sku) "GPUs" = Except.ok p.gpuCount ∧
    p.gpuType = capMapOf sku "GPUName" ∧
    p.nvme = decide (p.uncachedDiskIOPS > 100000) ∧
    getInt (capMapOf sku) "UncachedDiskIOPS" = Except.ok p.uncachedDiskIOPS ∧
    getInt (capMapOf sku) "UncachedDiskBytesPerSecond" = Except.ok p.uncachedDiskBytesPerSecond ∧
    getInt (capMapOf sku) "CachedDiskIOPS" = Except.ok p.cachedDiskIOPS ∧
    getInt (capMapOf sku) "CachedDiskBytesPerSecond" = Except.ok p.cachedDiskBytesPerSecond ∧
    getInt (capMapOf sku) "MaxWriteAcceleratorDisksAllowed" =
      Except.ok p.maxWriteAcceleratorDisks := by
  unfold extract_capabilities at h
  repeat' split at h
  all_goals simp_all
  all_goals subst h
  all_goals simp_all

theorem getInt_absent (m : String → Option String) (k : String) (h : m k = none) :
    getInt m k = Except.ok 0 := by
  unfold getInt
  rw [h]

theorem getFloat_absent (m : String → Option String) (k : String) (h : m k = none) :
    getFloat m k = Except.ok 0 := by
  unfold getFloat
  rw [h]

theorem getBool_absent (m : String → Option String) (k : String) (h : m k = none) :
    getBool m k = false := by
  unfold getBool
  rw [h]
  rfl

theorem getInt_unparsable (m : String → Option String) (k v : String) (h : m k = some v)
    (hbad : parseInt v = none) :
    getInt m k = Except.error ("invalid literal for int(): " ++ v) := by
  simp [getInt, h, hbad]

theorem getFloat_unparsable (m : String → Option String) (k v : String) (h : m k = some v)
    (hbad : parseFloat v = none) :
    getFloat m k = Except.error ("could not convert string to float: " ++ v) := by
  simp [getFloat, h, hbad]

/-- A record with no capability list at all extracts to the all-default
profile. -/

theorem extract_absent_list (sku : RawSku) (h : sku.capabilities = none) :
    extract_capabilities sku = Except.ok default_profile := by
  obtain ⟨n, c, li⟩ := sku
  cases h
  rfl

/-- If extraction succeeded, every integer-typed getter succeeded. -/

theorem extract_ok_int_getter (sku : RawSku) (p : CapabilityProfile) (k : String)
    (h : extract_capabilities sku = Except.ok p) (hk : k ∈ int_capability_keys) :
    (getInt (capMapOf sku) k).isOk = true := by
  obtain ⟨h1, _, h3, h4, _, _, _, _, h9, _, _, h12, h13, h14, h15, h16⟩ :=
    extract_ok_fields sku p h
  fin_cases hk <;> simp_all [Except.isOk, Except.toBool]

/-- If extraction succeeded, the `MemoryGB` getter succeeded. -/

theorem extract_ok_float_getter (sku : RawSku) (p : CapabilityProfile)
    (h : extract_capabilities sku = Except.ok p) :
    (getFloat (capMapOf sku) "MemoryGB").isOk = true := by
  obtain ⟨_, h2, _⟩ := extract_ok_fields sku p h
  simp [h2, Except.isOk, Except.toBool]

/-- A present-but-unparsable numeric attribute makes extraction fail. -/

theorem extract_fails_of_unparsable (sku : RawSku) (k v : String)
    (hv : capMapOf sku k = some v)
    (hbad : (k ∈ int_capability_keys ∧ parseInt v = none) ∨
      (k = "MemoryGB" ∧ parseFloat v = none)) :
    (extract_capabilities sku).isOk = false := by
  cases hx : extract_capabilities sku with
  | error e => rfl
  | ok p =>
    exfalso
    rcases hbad with ⟨hk, hbad⟩ | ⟨rfl, hbad⟩
    · have := extract_ok_int_getter sku p k hx hk
      rw [getInt_unparsable (capMapOf sku) k v hv hbad] at this
      simp [Except.isOk, Except.toBool] at this
    · have := extract_ok_float_getter sku p hx
      rw [getFloat_unparsable (capMapOf sku) "MemoryGB" v hv hbad] at this
      simp [Except.isOk, Except.toBool] at this

/-- An extraction failure of any non-target candidate makes the whole
candidate loop fail: no partial result list survives. -/

theorem build_fails_of_extract_fails (req : ComparisonRequest)
    (target_capabilities : CapabilityProfile)
    (pricing : String → String → String → Option PricingInfo) :
    ∀ (skus : List RawSku) (sku : RawSku), sku ∈ skus → sku.name ≠ req.skuName →
      (extract_capabilities sku).isOk = false →
      (build_alternatives req target_capabilities pricing skus).isOk = false := by
  intro skus
  induction skus with
  | nil =>
    intro sku h
    cases h
  | cons head rest ih =>
    intro sku hmem hname hfail
    rcases List.mem_cons.mp hmem with rfl | hmem2
    · rw [build_alternatives, if_neg hname]
      cases hx : extract_capabilities sku with
      | error e => rfl
      | ok c => rw [hx] at hfail; simp [Except.isOk, Except.toBool] at hfail
    · have hr := ih sku hmem2 hname hfail
      by_cases hn : head.name = req.skuName
      · rw [build_alternatives, if_pos hn]
        exact hr
      · cases hx : extract_capabilities head with
        | error e => simp [build_alternatives, hn, hx, Except.isOk, Except.toBool]
        | ok c =>
          by_cases ha :
            admits target_capabilities c req.requireNVMeMatch req.requireGPUMatch = true
          · by_cases hs : calculate_similarity target_capabilities c req.weights req.tolerance ≥
              req.minSimilarityScore
            · cases hb : build_alternatives req target_capabilities pricing rest with
              | error e => simp [build_alternatives, hn, hx, ha, hs, hb, Except.isOk,
                  Except.toBool]
              | ok alts => rw [hb] at hr; simp [Except.isOk, Except.toBool] at hr
            · simpa [build_alternatives, hn, hx, ha, hs] using hr
          · simpa [build_alternatives, hn, hx, ha] using hr

/-- An extraction failure of any non-target candidate makes the whole
comparison fail. -/

theorem compare_fails_of_extract_fails (req : ComparisonRequest)
    (pricing : String → String → String → Option PricingInfo)
    (skus : List RawSku) (sku : RawSku) (hmem : sku ∈ skus) (hname : sku.name ≠ req.skuName)
    (hfail : (extract_capabilities sku).isOk = false) :
    (compare_vms req pricing skus).isOk = false := by
  cases hf : skus.find? (fun s => s.name == req.skuName) with
  | none => simp [compare_vms, hf, Except.isOk, Except.toBool]
  | some target_sku =>
    cases hx : extract_capabilities target_sku with
    | error e => simp [compare_vms, hf, hx, Except.isOk, Except.toBool]
    | ok target_capabilities =>
      cases hb : build_alternatives req target_capabilities pricing skus with
      | error e => simp [compare_vms, hf, hx, hb, Except.isOk, Except.toBool]
      | ok alts =>
        have := build_fails_of_extract_fails req target_capabilities pricing skus sku
          hmem hname hfail
        rw [hb] at this
        simp [Except.isOk, Except.toBool] at this

theorem buildCapMap_aux (caps : List RawCapability) (m0 : String → Option String) (k : String) :
    caps.foldl (fun m c => fun q => if q = c.name then some c.value else m q) m0 k =
      match caps.reverse.find? (fun c => c.name == k) with
      | some c => some c.value
      | none => m0 k := by
  induction caps generalizing m0 with
  | nil => rfl
  | cons c rest ih =>
    rw [List.foldl_cons, ih, List.reverse_cons, List.find?_append]
    cases hf : rest.reverse.find? (fun c => c.name == k) with
    | some c2 => simp [Option.or]
    | none =>
      by_cases h : c.name = k
      · have hb : (c.name == k) = true := by simp [h]
        simp [Option.or, List.find?, hb, h]
      · have hb : (c.name == k) = false := by simp [h]
        simp only [Option.or, List.find?, hb]
        rw [if_neg (Ne.symm h)]

/-- The capability dict holds, for each name, the value of the LAST
occurrence of that name in the raw attribute list. -/

theorem buildCapMap_last (caps : List RawCapability) (k : String) :
    buildCapMap caps k =
      (caps.reverse.find? (fun c => c.name == k)).map RawCapability.value := by
  rw [buildCapMap, buildCapMap_aux]
  cases caps.reverse.find? (fun c => c.name == k) <;> rfl

theorem sort_alternatives_perm (L : List AlternativeResult) :
    (sort_alternatives L).Perm L :=
  List.perm_insertionSort similarity_desc L

theorem sort_alternatives_sorted (L : List AlternativeResult) :
    (sort_alternatives L).Sorted similarity_desc :=
  List.sorted_insertionSort similarity_desc L

/-- Stability of the final sort: within each equal-score class the sorted
list preserves the pre-sort (catalog) order. -/

theorem sort_alternatives_stable (L : List AlternativeResult) (q : ℚ) :
    (sort_alternatives L).filter (fun a => a.similarityScore == q) =
      L.filter (fun a => a.similarityScore == q) := by
  have hpw : (L.filter (fun a => a.similarityScore == q)).Pairwise similarity_desc := by
    apply List.pairwise_of_forall_mem_list
    intro a ha b hb
    have ha2 := (List.mem_filter.mp ha).2
    have hb2 := (List.mem_filter.mp hb).2
    simp only [beq_iff_eq] at ha2 hb2
    unfold similarity_desc
    rw [ha2, hb2]
  have hsub : List.Sublist (L.filter (fun a => a.similarityScore == q)) (sort_alternatives L) :=
    List.sublist_insertionSort hpw (List.filter_sublist L)
  have hsub2 : List.Sublist (L.filter (fun a => a.similarityScore == q))
      ((sort_alternatives L).filter (fun a => a.similarityScore == q)) := by
    have := hsub.filter (fun a => a.similarityScore == q)
    rwa [List.filter_eq_self.mpr (fun a ha => (List.mem_filter.mp ha).2)] at this
  have hlen : ((sort_alternatives L).filter (fun a => a.similarityScore == q)).length =
      (L.filter (fun a => a.similarityScore == q)).length :=
    ((sort_alternatives_perm L).filter (fun a => a.similarityScore == q)).length_eq
  exact (hsub2.eq_of_length hlen.symm).symm

/-- Membership characterization of the candidate loop: the produced list
holds exactly the materializations of the non-target candidates that
extract, pass the filter and reach the threshold. -/

theorem build_mem (req : ComparisonRequest) (target_capabilities : CapabilityProfile)
    (pricing : String → String → String → Option PricingInfo) :
    ∀ (skus : List RawSku) (L : List AlternativeResult),
      build_alternatives req target_capabilities pricing skus = Except.ok L →
      ∀ alt, alt ∈ L ↔ ∃ sku, sku ∈ skus ∧ sku.name ≠ req.skuName ∧
        ∃ caps, extract_capabilities sku = Except.ok caps ∧
          admits target_capabilities caps req.requireNVMeMatch req.requireGPUMatch = true ∧
          calculate_similarity target_capabilities caps req.weights req.tolerance ≥
            req.minSimilarityScore ∧
          alt = mk_alternative req sku caps
            (calculate_similarity target_capabilities caps req.weights req.tolerance)
            (pricing sku.name req.location req.currencyCode) := by
  intro skus
  induction skus with
  | nil =>
    intro L hL alt
    rw [build_alternatives] at hL
    obtain rfl : ([] : List AlternativeResult) = L := by
      simpa using hL
    simp
  | cons head rest ih =>
    intro L hL alt
    by_cases hn : head.name = req.skuName
    · rw [build_alternatives, if_pos hn] at hL
      rw [ih L hL alt]
      constructor
      · rintro ⟨sku, hm, hrest⟩
        exact ⟨sku, List.mem_cons_of_mem head hm, hrest⟩
      · rintro ⟨sku, hm, hname, hrest⟩
        rcases List.mem_cons.mp hm with rfl | hm2
        · exact absurd hn hname
        · exact ⟨sku, hm2, hname, hrest⟩
    · rw [build_alternatives, if_neg hn] at hL
      cases hx : extract_capabilities head with
      | error e =>
        rw [hx] at hL
        simp at hL
      | ok c =>
        rw [hx] at hL
        simp only [] at hL
        by_cases ha :
            admits target_capabilities c req.requireNVMeMatch req.requireGPUMatch = true
        · rw [if_pos ha] at hL
          by_cases hs : calculate_similarity target_capabilities c req.weights req.tolerance ≥
              req.minSimilarityScore
          · rw [if_pos hs] at hL
            cases hbr : build_alternatives req target_capabilities pricing rest with
            | error e =>
              rw [hbr] at hL
              simp at hL
            | ok alts =>
              rw [hbr] at hL
              obtain rfl : mk_alternative req head c
                  (calculate_similarity target_capabilities c req.weights req.tolerance)
                  (pricing head.name req.location req.currencyCode) :: alts = L := by
                simpa using hL
              constructor
              · intro hmem
                rcases List.mem_cons.mp hmem with rfl | hm2
                · exact ⟨head, List.mem_cons_self head rest, hn, c, hx, ha, hs, rfl⟩
                · obtain ⟨sku, hm, hrest⟩ := (ih alts hbr alt).mp hm2
                  exact ⟨sku, List.mem_cons_of_mem head hm, hrest⟩
              · rintro ⟨sku, hm, hname, caps, hcx, hca, hcs, rfl⟩
                rcases List.mem_cons.mp hm with rfl | hm2
                · obtain rfl : c = caps := by
                    rw [hx] at hcx
                    exact (Except.ok.inj hcx)
                  exact List.mem_cons_self _ _
                · exact List.mem_cons_of_mem _
                    ((ih alts hbr _).mpr ⟨sku, hm2, hname, caps, hcx, hca, hcs, rfl⟩)
          · rw [if_neg hs] at hL
            rw [ih L hL alt]
            constructor
            · rintro ⟨sku, hm, hrest⟩
              exact ⟨sku, List.mem_cons_of_mem head hm, hrest⟩
            · rintro ⟨sku, hm, hname, caps, hcx, hca, hcs, rfl⟩
              rcases List.mem_cons.mp hm with rfl | hm2
              · obtain rfl : c = caps := by
                  rw [hx] at hcx
                  exact (Except.ok.inj hcx)
                exact absurd hcs hs
              · exact ⟨sku, hm2, hname, caps, hcx, hca, hcs, rfl⟩
        · rw [if_neg ha] at hL
          rw [ih L hL alt]
          constructor
          · rintro ⟨sku, hm, hrest⟩
            exact ⟨sku, List.mem_cons_of_mem head hm, hrest⟩
          · rintro ⟨sku, hm, hname, caps, hcx, hca, hcs, rfl⟩
            rcases List.mem_cons.mp hm with rfl | hm2
            · obtain rfl : c = caps := by
                rw [hx] at hcx
                exact (Except.ok.inj hcx)
              exact absurd hca ha
            · exact ⟨sku, hm2, hname, caps, hcx, hca, hcs, rfl⟩

/-- C1: for every pair of capability profiles and every (non-negative) weight
set, `calculate_similarity` returns the weighted average of the spec,
`sum(sub-score_i * weight_i) / sum(weight_i)` over exactly the active
dimensions, each relative-difference sub-score clamped at a floor of 0; and
when the total weight of active dimensions is 0 the result is 0, not an
error. -/

theorem claim_score_formula (target candidate : CapabilityProfile) (weights : Weights)
    (tolerance : ℚ)
    (h1 : 0 ≤ weights.weightCPU) (h2 : 0 ≤ weights.weightMemory) (h3 : 0 ≤ weights.weightGPU)
    (h4 : 0 ≤ weights.weightStorage) (h5 : 0 ≤ weights.weightNetwork)
    (h6 : 0 ≤ weights.weightFeatures) :
    calculate_similarity target candidate weights tolerance =
      spec_score target candidate weights ∧
    (spec_active_weight target candidate weights = 0 →
      calculate_similarity target candidate weights tolerance = 0) := by
  have he := calc_eq_spec_score target candidate weights tolerance h1 h2 h3 h4 h5 h6
  refine ⟨he, fun hz => ?_⟩
  rw [he, spec_score, if_pos hz]

/-- Witness for C1 at concrete inputs: the default weights are non-negative
and the implemented score equals the spec formula there. -/

theorem claim_score_formula_witness :
    (0:ℚ) ≤ 2 ∧ (0:ℚ) ≤ 1 ∧ (0:ℚ) ≤ 1/2 ∧
    (calculate_similarity example_target example_candidate default_weights 20 =
        spec_score example_target example_candidate default_weights ∧
      (spec_active_weight example_target example_candidate default_weights = 0 →
        calculate_similarity example_target example_candidate default_weights 20 = 0)) :=
  ⟨by norm_num, by norm_num, by norm_num,
    claim_score_formula example_target example_candidate default_weights 20
      (by norm_num [default_weights]) (by norm_num [default_weights])
      (by norm_num [default_weights]) (by norm_num [default_weights])
      (by norm_num [default_weights]) (by norm_num [default_weights])⟩

/-- C2: self-comparison scores exactly 100 for any profile whenever the
total weight of the active dimensions is positive, for any tolerance; and if
every weight is 0 the score is 0 by the zero-denominator rule, not 100. -/

theorem claim_self_similarity (p : CapabilityProfile) (weights : Weights) (tolerance : ℚ) :
    (spec_active_weight p p weights > 0 → calculate_similarity p p weights tolerance = 100) ∧
    (weights.weightCPU = 0 ∧ weights.weightMemory = 0 ∧ weights.weightGPU = 0 ∧
      weights.weightStorage = 0 ∧ weights.weightNetwork = 0 ∧ weights.weightFeatures = 0 →
      calculate_similarity p p weights tolerance = 0) := by
  constructor
  · intro h
    exact (self_similarity_aux p weights tolerance).1 (by rw [total_weight_eq_spec]; exact h)
  · rintro ⟨hc, hm, hg, hs, hn, hf⟩
    apply (self_similarity_aux p weights tolerance).2
    have hz : total_weight_of p p weights = 0 := by
      unfold total_weight_of
      split_ifs <;> simp [hc, hm, hg, hs, hn, hf]
    rw [hz]
    norm_num

/-- Witness for C2: a concrete profile with active dimensions and the
positive default weights scores 100 against itself; with all weights zero it
scores 0. -/

theorem claim_self_similarity_witness :
    spec_active_weight example_target example_target default_weights > 0 ∧
    calculate_similarity example_target example_target default_weights 20 = 100 ∧
    calculate_similarity example_target example_target zero_weights 20 = 0 := by
  have hpos : spec_active_weight example_target example_target default_weights > 0 := by
    norm_num [spec_active_weight, example_target, default_weights]
  refine ⟨hpos, (claim_self_similarity example_target default_weights 20).1 hpos,
    (claim_self_similarity example_target zero_weights 20).2 ?_⟩
  norm_num [zero_weights]

/-- C4: in every successfully extracted profile, `nvme` is exactly
`uncachedDiskIOPS > 100000`; `nvme` is never read as a literal attribute, so
no attribute value can make the two disagree. -/

theorem claim_nvme_derived (sku : RawSku) (p : CapabilityProfile)
    (h : extract_capabilities sku = Except.ok p) :
    (p.nvme = true ↔ p.uncachedDiskIOPS > 100000) ∧
    p.nvme = decide (p.uncachedDiskIOPS > 100000) := by
  obtain ⟨-, -, -, -, -, -, -, -, -, -, h11, -⟩ := extract_ok_fields sku p h
  refine ⟨?_, h11⟩
  rw [h11]
  simp

/-- Witness for C4: a record whose only numeric attribute is a high
`UncachedDiskIOPS` (plus a lying literal `nvme` attribute) extracts with
`nvme` derived from the IOPS value alone. -/

theorem claim_nvme_derived_witness :
    extract_capabilities ⟨"N", some [⟨"UncachedDiskIOPS", "200000"⟩, ⟨"nvme", "False"⟩], none⟩ =
      Except.ok ⟨0, 0, 0, 0, false, false, false, false, 0, none, true, 200000, 0, 0, 0, 0⟩ ∧
    ((true : Bool) = true ↔ (200000 : ℤ) > 100000) := by
  have h : extract_capabilities
      ⟨"N", some [⟨"UncachedDiskIOPS", "200000"⟩, ⟨"nvme", "False"⟩], none⟩ =
      Except.ok ⟨0, 0, 0, 0, false, false, false, false, 0, none, true, 200000, 0, 0, 0, 0⟩ :=
    rfl
  exact ⟨h, (claim_nvme_derived _ _ h).1⟩

/-- C5: extraction always yields a fully populated profile: each getter maps
an absent attribute to the documented default rather than an error, a record
with no capability list extracts to the all-default profile, and in any
successful extraction each absent source attribute yields the documented
default of its field (numerics 0, booleans false, gpuType absent). -/

theorem claim_defaults (sku : RawSku) :
    (∀ (m : String → Option String) (k : String), m k = none → getInt m k = Except.ok 0) ∧
    (∀ (m : String → Option String) (k : String), m k = none → getFloat m k = Except.ok 0) ∧
    (∀ (m : String → Option String) (k : String), m k = none → getBool m k = false) ∧
    (sku.capabilities = none → extract_capabilities sku = Except.ok default_profile) ∧
    (∀ p, extract_capabilities sku = Except.ok p →
      (capMapOf sku "vCPUs" = none → p.vCPUs = 0) ∧
      (capMapOf sku "MemoryGB" = none → p.memoryGB = 0) ∧
      (capMapOf sku "MaxDataDiskCount" = none → p.maxDataDiskCount = 0) ∧
      (capMapOf sku "MaxNetworkInterfaces" = none → p.maxNics = 0) ∧
      (capMapOf sku "PremiumIO" = none → p.premiumIo = false) ∧
      (capMapOf sku "EphemeralOSDiskSupported" = none → p.ephemeralOSDisk = false) ∧
      (capMapOf sku "AcceleratedNetworkingEnabled" = none → p.acceleratedNetworking = false) ∧
      (capMapOf sku "EncryptionAtHostSupported" = none → p.encryptionAtHost = false) ∧
      (capMapOf sku "GPUs" = none → p.gpuCount = 0) ∧
      (capMapOf sku "GPUName" = none → p.gpuType = none) ∧
      (capMapOf sku "UncachedDiskIOPS" = none → p.uncachedDiskIOPS = 0 ∧ p.nvme = false) ∧
      (capMapOf sku "UncachedDiskBytesPerSecond" = none → p.uncachedDiskBytesPerSecond = 0) ∧
      (capMapOf sku "CachedDiskIOPS" = none → p.cachedDiskIOPS = 0) ∧
      (capMapOf sku "CachedDiskBytesPerSecond" = none → p.cachedDiskBytesPerSecond = 0) ∧
      (capMapOf sku "MaxWriteAcceleratorDisksAllowed" = none →
        p.maxWriteAcceleratorDisks = 0)) := by
  refine ⟨getInt_absent, getFloat_absent, getBool_absent, extract_absent_list sku, ?_⟩
  intro p hp
  obtain ⟨h1, h2, h3, h4, h5, h6, h7, h8, h9, h10, h11, h12, h13, h14, h15, h16⟩ :=
    extract_ok_fields sku p hp
  refine ⟨?_, ?_, ?_, ?_, ?_, ?_, ?_, ?_, ?_, ?_, ?_, ?_, ?_, ?_, ?_⟩
  · intro habs
    rw [getInt_absent _ _ habs] at h1
    exact (Except.ok.inj h1).symm
  · intro habs
    rw [getFloat_absent _ _ habs] at h2
    exact (Except.ok.inj h2).symm
  · intro habs
    rw [getInt_absent _ _ habs] at h3
    exact (Except.ok.inj h3).symm
  · intro habs
    rw [getInt_absent _ _ habs] at h4
    exact (Except.ok.inj h4).symm
  · intro habs
    rw [h5, getBool_absent _ _ habs]
  · intro habs
    rw [h6, getBool_absent _ _ habs]
  · intro habs
    rw [h7, getBool_absent _ _ habs]
  · intro habs
    rw [h8, getBool_absent _ _ habs]
  · intro habs
    rw [getInt_absent _ _ habs] at h9
    exact (Except.ok.inj h9).symm
  · intro habs
    rw [h10, habs]
  · intro habs
    rw [getInt_absent _ _ habs] at h12
    have hu : p.uncachedDiskIOPS = 0 := (Except.ok.inj h12).symm
    refine ⟨hu, ?_⟩
    rw [h11, hu]
    rfl
  · intro habs
    rw [getInt_absent _ _ habs] at h13
    exact (Except.ok.inj h13).symm
  · intro habs
    rw [getInt_absent _ _ habs] at h14
    exact (Except.ok.inj h14).symm
  · intro habs
    rw [getInt_absent _ _ habs] at h15
    exact (Except.ok.inj h15).symm
  · intro habs
    rw [getInt_absent _ _ habs] at h16
    exact (Except.ok.inj h16).symm

/-- Witness for C5: a record with no capability list extracts to the
all-default profile, and a record carrying only `vCPUs` defaults every other
field. -/

theorem claim_defaults_witness :
    extract_capabilities ⟨"E", none, none⟩ = Except.ok default_profile ∧
    (∀ p, extract_capabilities ⟨"V", some [⟨"vCPUs", "4"⟩], none⟩ = Except.ok p →
      (capMapOf ⟨"V", some [⟨"vCPUs", "4"⟩], none⟩ "MemoryGB" = none → p.memoryGB = 0)) ∧
    (extract_capabilities ⟨"V", some [⟨"vCPUs", "4"⟩], none⟩ =
      Except.ok ⟨4, 0, 0, 0, false, false, false, false, 0, none, false, 0, 0, 0, 0, 0⟩) := by
  refine ⟨(claim_defaults ⟨"E", none, none⟩).2.2.2.1 rfl, ?_, rfl⟩
  intro p hp
  exact ((claim_defaults ⟨"V", some [⟨"vCPUs", "4"⟩], none⟩).2.2.2.2 p hp).2.1

/-- C6: a numeric source attribute that is present but unparsable makes
extraction fail, and the failure of any non-target candidate aborts the
whole comparison with no partial results. -/

theorem claim_unparsable_fatal (req : ComparisonRequest)
    (pricing : String → String → String → Option PricingInfo)
    (skus : List RawSku) (sku : RawSku) (k v : String)
    (hmem : sku ∈ skus) (hname : sku.name ≠ req.skuName)
    (hv : capMapOf sku k = some v)
    (hbad : (k ∈ int_capability_keys ∧ parseInt v = none) ∨
      (k = "MemoryGB" ∧ parseFloat v = none)) :
    (extract_capabilities sku).isOk = false ∧
    (compare_vms req pricing skus).isOk = false := by
  have hf := extract_fails_of_unparsable sku k v hv hbad
  exact ⟨hf, compare_fails_of_extract_fails req pricing skus sku hmem hname hf⟩

/-- Witness for C6: with catalog `[T, B]` where `B` carries
`vCPUs = "four"`, extraction of `B` fails and the whole comparison fails. -/

theorem claim_unparsable_fatal_witness :
    example_bad_sku ∈ [example_target_sku, example_bad_sku] ∧
    example_bad_sku.name ≠ example_request.skuName ∧
    capMapOf example_bad_sku "vCPUs" = some "four" ∧
    parseInt "four" = none ∧
    (extract_capabilities example_bad_sku).isOk = false ∧
    (compare_vms example_request (fun _ _ _ => none)
      [example_target_sku, example_bad_sku]).isOk = false := by
  have h := claim_unparsable_fatal example_request (fun _ _ _ => none)
    [example_target_sku, example_bad_sku] example_bad_sku "vCPUs" "four"
    (by simp) (by decide) rfl (Or.inl ⟨by decide, rfl⟩)
  exact ⟨by simp, by decide, rfl, rfl, h.1, h.2⟩

/-- C7: the match filter rejects a candidate iff `requireNVMeMatch` is set
with an NVMe target and a non-NVMe candidate, or `requireGPUMatch` is set
with a GPU target and a GPU-less candidate; in every other case the
candidate is admitted to scoring. -/

theorem claim_filter_rejects (target candidate : CapabilityProfile)
    (requireNVMeMatch requireGPUMatch : Bool) :
    admits target candidate requireNVMeMatch requireGPUMatch = false ↔
      ((requireNVMeMatch = true ∧ target.nvme = true ∧ candidate.nvme = false) ∨
       (requireGPUMatch = true ∧ target.gpuCount > 0 ∧ candidate.gpuCount = 0)) := by
  unfold admits
  split_ifs with hn hg
  · simp only [Bool.and_eq_true, Bool.not_eq_true'] at hn
    simp [hn.1.1, hn.1.2, hn.2]
  · simp only [Bool.and_eq_true, decide_eq_true_eq] at hg
    simp [hg.1.1, hg.1.2, hg.2]
  · simp only [Bool.and_eq_true, Bool.not_eq_true'] at hn hg
    constructor
    · intro h
      cases h
    · rintro (⟨ha, hb, hc⟩ | ⟨ha, hb, hc⟩)
      · exact absurd ⟨⟨ha, hb⟩, hc⟩ hn
      · exact absurd ⟨⟨ha, by simpa using hb⟩, by simpa using hc⟩ hg

/-- C8: the similarity score is not symmetric in target and candidate — at
target vCPUs 4 against candidate vCPUs 8 (all else equal) the two
orientations differ, because the relative-difference denominator is the
value of the target — while the GPU and Features sub-scores alone are
symmetric. -/

theorem claim_not_symmetric :
    calculate_similarity asym_target asym_candidate default_weights 20 ≠
      calculate_similarity asym_candidate asym_target default_weights 20 ∧
    (∀ target candidate, gpu_match target candidate = gpu_match candidate target) ∧
    (∀ target candidate, feature_score target candidate = feature_score candidate target) := by
  refine ⟨?_, gpu_match_symm, feature_score_symm⟩
  norm_num [calculate_similarity, cpu_score, feature_score, feature_matches,
    asym_target, asym_candidate, default_weights]

/-- C9: the tolerance parameter never influences the similarity score — two
runs differing only in tolerance return identical scores. -/

theorem claim_tolerance_ignored (target candidate : CapabilityProfile) (weights : Weights)
    (t1 t2 : ℚ) :
    calculate_similarity target candidate weights t1 =
      calculate_similarity target candidate weights t2 := rfl

/-- C10: when an attribute name occurs more than once, the built dict (and
hence the extracted profile) uses the value of the last occurrence in list
order; earlier occurrences are overwritten and cannot influence the
profile. -/

theorem claim_last_occurrence :
    (∀ (caps : List RawCapability) (k : String),
      buildCapMap caps k =
        (caps.reverse.find? (fun c => c.name == k)).map RawCapability.value) ∧
    (∀ (name : String) (li : Option (List LocationInfo)) (caps1 caps2 : List RawCapability),
      buildCapMap caps1 = buildCapMap caps2 →
      extract_capabilities ⟨name, some caps1, li⟩ =
        extract_capabilities ⟨name, some caps2, li⟩) := by
  refine ⟨buildCapMap_last, ?_⟩
  intro name li caps1 caps2 h
  have hm : capMapOf ⟨name, some caps1, li⟩ = capMapOf ⟨name, some caps2, li⟩ := h
  unfold extract_capabilities
  rw [hm]

/-- Witness for C10: with `vCPUs` listed twice, lookup returns the later
value and extraction agrees with the deduplicated list. -/

theorem claim_last_occurrence_witness :
    buildCapMap [⟨"vCPUs", "1"⟩, ⟨"vCPUs", "7"⟩] "vCPUs" = some "7" ∧
    extract_capabilities ⟨"D", some [⟨"vCPUs", "1"⟩, ⟨"vCPUs", "7"⟩], none⟩ =
      extract_capabilities ⟨"D", some [⟨"vCPUs", "7"⟩], none⟩ := by
  constructor
  · rw [claim_last_occurrence.1 [⟨"vCPUs", "1"⟩, ⟨"vCPUs", "7"⟩] "vCPUs"]
    rfl
  · refine claim_last_occurrence.2 "D" none _ _ ?_
    funext k
    by_cases h : k = "vCPUs" <;> simp [buildCapMap, h]

/-- C3: the comparison returns exactly the admitted candidates whose raw
similarity score reaches `minSimilarityScore`, sorted by stored score
descending, with ties on equal scores kept in input (catalog) order. -/

theorem claim_ranking (req : ComparisonRequest)
    (pricing : String → String → String → Option PricingInfo) (skus : List RawSku)
    (target_sku : RawSku) (target_capabilities : CapabilityProfile)
    (L : List AlternativeResult)
    (hfind : skus.find? (fun s => s.name == req.skuName) = some target_sku)
    (hext : extract_capabilities target_sku = Except.ok target_capabilities)
    (hbuild : build_alternatives req target_capabilities pricing skus = Except.ok L) :
    compare_vms req pricing skus =
      Except.ok (target_capabilities, sort_alternatives L) ∧
    (sort_alternatives L).Perm L ∧
    (sort_alternatives L).Sorted similarity_desc ∧
    (∀ q : ℚ, (sort_alternatives L).filter (fun a => a.similarityScore == q) =
      L.filter (fun a => a.similarityScore == q)) ∧
    (∀ alt, alt ∈ sort_alternatives L ↔ ∃ sku, sku ∈ skus ∧ sku.name ≠ req.skuName ∧
      ∃ caps, extract_capabilities sku = Except.ok caps ∧
        admits target_capabilities caps req.requireNVMeMatch req.requireGPUMatch = true ∧
        calculate_similarity target_capabilities caps req.weights req.tolerance ≥
          req.minSimilarityScore ∧
        alt = mk_alternative req sku caps
          (calculate_similarity target_capabilities caps req.weights req.tolerance)
          (pricing sku.name req.location req.currencyCode)) := by
  refine ⟨?_, sort_alternatives_perm L, sort_alternatives_sorted L,
    fun q => sort_alternatives_stable L q, ?_⟩
  · simp [compare_vms, hfind, hext, hbuild]
  · intro alt
    rw [(sort_alternatives_perm L).mem_iff]
    exact build_mem req target_capabilities pricing skus L hbuild alt

theorem score_a : calculate_similarity caps_t caps_a ranking_weights 20 = 90 := by
  norm_num [calculate_similarity, cpu_score, feature_score, feature_matches, caps_t, caps_a,
    ranking_weights]

theorem score_b : calculate_similarity caps_t caps_b ranking_weights 20 = 95 := by
  norm_num [calculate_similarity, cpu_score, feature_score, feature_matches, caps_t, caps_b,
    ranking_weights]

theorem score_c : calculate_similarity caps_t caps_c ranking_weights 20 = 80 := by
  norm_num [calculate_similarity, cpu_score, feature_score, feature_matches, caps_t, caps_c,
    ranking_weights]

theorem mk_alt_a : mk_alternative ranking_request sku_a caps_a 90 none = alt_a := by
  norm_num [mk_alternative, round2, round_half_even, zoneText, get_availability_zones,
    ranking_request, sku_a, caps_a, alt_a]

theorem mk_alt_b : mk_alternative ranking_request sku_b caps_b 95 none = alt_b := by
  norm_num [mk_alternative, round2, round_half_even, zoneText, get_availability_zones,
    ranking_request, sku_b, caps_b, alt_b]

theorem build_ranking :
    build_alternatives ranking_request caps_t pricing0 [sku_t, sku_a, sku_b, sku_c] =
      Except.ok [alt_a, alt_b] := by
  have hxa : extract_capabilities sku_a = Except.ok caps_a := rfl
  have hxb : extract_capabilities sku_b = Except.ok caps_b := rfl
  have hxc : extract_capabilities sku_c = Except.ok caps_c := rfl
  have hadm_a : admits caps_t caps_a false false = true := rfl
  have hadm_b : admits caps_t caps_b false false = true := rfl
  have hadm_c : admits caps_t caps_c false false = true := rfl
  have hreq_flags : ranking_request.requireNVMeMatch = false := rfl
  have hreq_flags2 : ranking_request.requireGPUMatch = false := rfl
  have hreq_w : ranking_request.weights = ranking_weights := rfl
  have hreq_tol : ranking_request.tolerance = 20 := rfl
  have hreq_min : ranking_request.minSimilarityScore = 85 := rfl
  have hname_t : sku_t.name = ranking_request.skuName := rfl
  have hname_a : (sku_a.name = ranking_request.skuName) = False := by
    simp [sku_a, ranking_request]
  have hname_b : (sku_b.name = ranking_request.skuName) = False := by
    simp [sku_b, ranking_request]
  have hname_c : (sku_c.name = ranking_request.skuName) = False := by
    simp [sku_c, ranking_request]
  rw [build_alternatives, if_pos hname_t]
  rw [build_alternatives, if_neg (by rw [hname_a]; exact fun h => h.elim)]
  rw [hxa]
  rw [build_alternatives, if_neg (by rw [hname_b]; exact fun h => h.elim)]
  rw [hxb]
  rw [build_alternatives, if_neg (by rw [hname_c]; exact fun h => h.elim)]
  rw [hxc]
  rw [build_alternatives]
  simp only [hreq_flags, hreq_flags2, hreq_w, hreq_tol, hreq_min, hadm_a, hadm_b, hadm_c,
    score_a, score_b, score_c, if_true]
  norm_num [pricing0, ranking_request, sku_a, sku_b]
  exact ⟨mk_alt_a, mk_alt_b⟩

/-- Witness for C3: catalog `[T, A, B, C]` with scores 90, 95, 80 and
threshold 85 — the loop admits `[A, B]` in catalog order and the final
result is exactly `[B (95), A (90)]`. -/

theorem claim_ranking_witness :
    [sku_t, sku_a, sku_b, sku_c].find? (fun s => s.name == ranking_request.skuName) =
      some sku_t ∧
    extract_capabilities sku_t = Except.ok caps_t ∧
    build_alternatives ranking_request caps_t pricing0 [sku_t, sku_a, sku_b, sku_c] =
      Except.ok [alt_a, alt_b] ∧
    compare_vms ranking_request pricing0 [sku_t, sku_a, sku_b, sku_c] =
      Except.ok (caps_t, sort_alternatives [alt_a, alt_b]) ∧
    sort_alternatives [alt_a, alt_b] = [alt_b, alt_a] ∧
    alt_b.similarityScore = 95 ∧ alt_a.similarityScore = 90 ∧
    (sort_alternatives [alt_a, alt_b]).Sorted similarity_desc := by
  have hfind : [sku_t, sku_a, sku_b, sku_c].find?
      (fun s => s.name == ranking_request.skuName) = some sku_t := rfl
  have hext : extract_capabilities sku_t = Except.ok caps_t := rfl
  have h := claim_ranking ranking_request pricing0 [sku_t, sku_a, sku_b, sku_c] sku_t caps_t
    [alt_a, alt_b] hfind hext build_ranking
  refine ⟨hfind, hext, build_ranking, h.1, ?_, rfl, rfl, h.2.2.1⟩
  have : ¬ similarity_desc alt_a alt_b := by
    norm_num [similarity_desc, alt_a, alt_b]
  simp [sort_alternatives, List.insertionSort, List.orderedInsert, this]
